import Mathlib

/-!
Verification development for the sway Swagger 2.0 model library.

The central source file is `lib/types/response.js`, whose
`Response.prototype.validateResponse` is embedded below.  The Operation
model, the Content-Type negotiator (`helpers.validateContentType`) and the
value convertor live in modules that are not part of the provided sources;
where a claim depends on them they are modelled from the specification and
marked as such in their doc comments.  External collaborators (the value
convertor plugin and the JSON Schema validator adapter) are abstracted as
function parameters, so theorems quantify over every behaviour they may
exhibit.
-/

namespace Sway

/-- A dynamic (JavaScript-like) runtime value.  Header values arrive as
strings; schema defaults and coerced values may be of any shape; `vDate`
models a JavaScript `Date` object (checked by `_.isDate`).  Arrays and
objects are opaque to the embedded code (it only passes them along and
tests dateness/truthiness, both constant on them), so they are modelled
by an indexed opaque token `vObj`. -/
inductive Val where
  | vStr (s : String)
  | vNum (n : Int)
  | vBool (b : Bool)
  | vDate (t : Int)
  | vObj (id : Nat)
  deriving DecidableEq, Repr

/-- `_.isDate` on a value. -/
def Val.isDate : Val → Bool
  | .vDate _ => true
  | _ => false

/-- JavaScript truthiness of a defined value: `""`, `0` and `false` are
falsy; dates, arrays and objects are truthy. -/
def jsTruthy : Val → Bool
  | .vStr s => !s.isEmpty
  | .vNum n => n != 0
  | .vBool b => b
  | .vDate _ => true
  | .vObj _ => true

/-- The JavaScript `||` operator on possibly-undefined values: the left
operand wins exactly when it is defined and truthy. -/
def jsOr (a b : Option Val) : Option Val :=
  match a with
  | some v => if jsTruthy v then some v else b
  | none => b

/-- The slice of a header/body schema object the embedded code inspects
directly: its `default` and `collectionFormat` properties.  The `id`
tag distinguishes otherwise-equal schemas, since the schema is also
passed opaquely to the convertor and the validator. -/
structure Schema where
  default : Option Val := none
  collectionFormat : Option String := none
  id : Nat := 0
  deriving DecidableEq, Repr

/-- A plain error record `{code, message, path}` as produced by the JSON
Schema validator adapter or synthesised from a thrown coercion error. -/
structure SchErr where
  code : String
  message : String
  path : List String
  deriving DecidableEq, Repr

/-- A thrown coercion error: `code`, `message`, `path`, and possibly a
nested `errors` array (`none` models an undefined `err.errors`). -/
structure ConvErr where
  code : String
  message : String
  path : List String
  errors : Option (List SchErr) := none
  deriving DecidableEq, Repr

/-- An entry of a validation result's `errors`/`warnings` arrays; `name`
is present on response-header envelopes, `errors` on envelopes carrying
nested validator errors. -/
structure SwayError where
  code : String
  message : String
  path : List String
  name : Option String := none
  errors : Option (List SchErr) := none
  deriving DecidableEq, Repr

/-- A validation results object `{errors, warnings}`. -/
structure ValidationResults where
  errors : List SwayError
  warnings : List SwayError
  deriving DecidableEq, Repr

/-- The options object handed to `plugin.convertValue`: the header path
passes `{collectionFormat}`, the body path passes `{encoding}`. -/
structure ConvertOpts where
  collectionFormat : Option String := none
  encoding : Option String := none
  deriving DecidableEq, Repr

/-- The external value-convertor plugin (`api.plugin.convertValue`): it
coerces a possibly-undefined raw value against a schema, returning the
coerced (possibly undefined) value or throwing a coercion error. -/
structure Plugin where
  convertValue : Schema → ConvertOpts → Option Val → Except ConvErr (Option Val)

/-- The JSON Schema validator adapter (`helpers.validateAgainstSchema`
with the constructed `jsonValidator`), abstracted as the list of errors
it reports for a value against a schema. -/
def Vas : Type := Schema → Option Val → List SchErr

/-- `name.toLowerCase()` on an (ASCII) header name, implemented over the
character list so that it evaluates by kernel reduction. -/
def toLowerStr (s : String) : String := String.mk (s.data.map Char.toLower)

/-- Property lookup in a string-keyed map (a JavaScript object with
string values, e.g. a header map). -/
def lookupHdr (hs : List (String × String)) (k : String) : Option String :=
  (hs.find? (fun p => p.fst == k)).map Prod.snd

/-- The raw header value the source feeds to the convertor:
`headers[name.toLowerCase()] || headers[name] || schema.default`
(JavaScript `||`, so a falsy defined value falls through). -/
def rawHeaderValue (hs : List (String × String)) (name : String) (schema : Schema) : Option Val :=
  jsOr ((lookupHdr hs (toLowerStr name)).map Val.vStr)
    (jsOr ((lookupHdr hs name).map Val.vStr) schema.default)

/-- A response definition: an optional body schema and the declared
header schemas (a string-keyed object, kept in declaration order). -/
structure ResponseDef where
  schema : Option Schema := none
  headers : List (String × Schema) := []
  deriving DecidableEq, Repr

/-- The Response model object: its status code (a string, or `default`),
its definition, and the owning operation's effective `produces` list. -/
structure Response where
  statusCode : String
  definition : ResponseDef
  produces : List String
  deriving DecidableEq, Repr

/-- The type/subtype portion of a media type: everything before the
first `;` (no trimming), mirroring `contentType.split(";")[0]`. -/
def stripParams (ct : String) : String :=
  String.mk (ct.data.takeWhile (fun c => c != ';'))

/-- Modelled from the spec: the Content-Type negotiator of section 4.C lives
in the helpers module, which is not among the provided sources.  An absent
Content-Type is treated as `application/octet-stream`; matching compares the
type/subtype portion (media-type parameters stripped), but an exact
full-string match including parameters also counts; an empty declared list
skips the check; on failure a single `INVALID_CONTENT_TYPE` error is
produced whose message enumerates the supported types. -/
def validateContentType (contentType : Option String) (supportedTypes : List String) :
    List SwayError :=
  let ct : String :=
    match contentType with
    | some c => stripParams c
    | none => "application/octet-stream"
  let rawMatches : Bool :=
    match contentType with
    | some c => supportedTypes.contains c
    | none => false
  if supportedTypes.length > 0 && !supportedTypes.contains ct && !rawMatches then
    [{ code := "INVALID_CONTENT_TYPE",
       message := "Invalid Content-Type (" ++ ct ++ ").  These are supported: " ++
         String.intercalate ", " supportedTypes,
       path := [] }]
  else []

/-- The body of the header loop of `Response.prototype.validateResponse`,
factored over the already-looked-up raw value: coerce it with
`plugin.convertValue(schema, {collectionFormat}, value)`; a thrown error is
wrapped as an `INVALID_RESPONSE_HEADER` error (nested `err.errors` kept when
defined, else a single synthesised record); a defined, non-`Date` coerced
value is validated against the schema and failures are wrapped as an
`INVALID_RESPONSE_HEADER` error carrying the validator's errors. -/
def checkHeaderValue (plugin : Plugin) (vas : Vas) (name : String) (schema : Schema)
    (value : Option Val) : List SwayError :=
  match plugin.convertValue schema { collectionFormat := schema.collectionFormat } value with
  | .error err =>
      [{ code := "INVALID_RESPONSE_HEADER",
         errors := some (err.errors.getD [{ code := err.code, message := err.message,
                                            path := err.path }]),
         message := "Invalid header (" ++ name ++ "): " ++ err.message,
         name := some name,
         path := err.path }]
  | .ok headerValue =>
      match headerValue with
      | none => []
      | some v =>
          if v.isDate then []
          else
            match vas schema (some v) with
            | [] => []
            | e :: rest =>
                [{ code := "INVALID_RESPONSE_HEADER",
                   errors := some (e :: rest),
                   message := "Invalid header (" ++ name ++ "): " ++
                     (if rest.length > 0 then "Value failed JSON Schema validation"
                      else e.message),
                   name := some name,
                   path := [] }]

/-- One iteration of the `_.forEach(this.headers, ...)` loop: look up the
raw value (lowercase key, then exact key, then schema default, by `||`)
and run `checkHeaderValue` on it. -/
def headerCheck (plugin : Plugin) (vas : Vas) (hs : List (String × String))
    (name : String) (schema : Schema) : List SwayError :=
  checkHeaderValue plugin vas name schema (rawHeaderValue hs name schema)

/-- The body-validation block of `Response.prototype.validateResponse`:
coerce the body with `plugin.convertValue(schema, {encoding}, body)` and
validate the result; a thrown error replaces the validator results with a
single synthesised record; any resulting errors are wrapped as one
`INVALID_RESPONSE_BODY` error. -/
def bodyCheck (plugin : Plugin) (vas : Vas) (schema : Schema) (body : Option Val)
    (encoding : Option String) : List SwayError :=
  let bvErrors : List SchErr :=
    match plugin.convertValue schema { encoding := encoding } body with
    | .ok bodyValue => vas schema bodyValue
    | .error err => [{ code := err.code, message := err.message, path := err.path }]
  match bvErrors with
  | [] => []
  | e :: rest =>
      [{ code := "INVALID_RESPONSE_BODY",
         errors := some (e :: rest),
         message := "Invalid body: " ++
           (if rest.length > 0 then "Value failed JSON Schema validation" else e.message),
         path := [] }]

/-- `Response.prototype.validateResponse(headers, body, encoding)`:
Content-Type validation (skipped when the definition has no schema or the
status code is `204`/`304`), then per-header validation, then body
validation (skipped under the same condition); errors accumulate in that
order and warnings are never produced. -/
def Response.validateResponse (plugin : Plugin) (vas : Vas) (r : Response)
    (hs : List (String × String)) (body : Option Val) (encoding : Option String) :
    ValidationResults :=
  let skipCtAndBody : Bool := r.definition.schema.isNone ||
    r.statusCode == "204" || r.statusCode == "304"
  let ctErrors : List SwayError :=
    if skipCtAndBody then []
    else validateContentType (lookupHdr hs "content-type") r.produces
  let hdrErrors : List SwayError :=
    r.definition.headers.flatMap (fun p => headerCheck plugin vas hs p.fst p.snd)
  let bodyErrors : List SwayError :=
    match r.definition.schema with
    | none => []
    | some schema =>
        if r.statusCode == "204" || r.statusCode == "304" then []
        else bodyCheck plugin vas schema body encoding
  { errors := ctErrors ++ hdrErrors ++ bodyErrors, warnings := [] }

/-- A parameter definition, reduced to the fields the composition logic
inspects: its `name`, its location (`in`), and an `id` tag standing for
the rest of the definition object. -/
structure Param where
  name : String
  inLoc : String
  id : Nat := 0
  deriving DecidableEq, Repr

/-- The composite key `(name, in)` on which parameters are deduplicated. -/
def paramKey (p : Param) : String × String := (p.name, p.inLoc)

/-- Modelled from the spec: the Operation constructor (its source module is
not among the provided files) merges path-level parameters followed by
operation-level parameters, with an operation-level parameter replacing a
path-level one that has the same `(name, in)` composite key rather than
duplicating it. -/
def mergeParameters (pathParams opParams : List Param) : List Param :=
  pathParams.filter
    (fun p => !opParams.any (fun q => q.name == p.name && q.inLoc == p.inLoc)) ++ opParams

/-- Modelled from the spec: the API model computes each operation's
effective media-type list (`consumes` / `produces`) as the operation-level
list when it is present and non-empty, falling back to the document-level
list otherwise (an absent document-level list means no media type is
declared). -/
def effectiveMediaTypes (operationLevel documentLevel : Option (List String)) :
    List String :=
  match operationLevel with
  | some l => if l.isEmpty then documentLevel.getD [] else l
  | none => documentLevel.getD []

/-- The Operation model, reduced to what response validation and
Content-Type negotiation consult: its responses keyed by status-code
string (plus `default`), its effective `produces` and `consumes`, and
its composed parameters. -/
structure Operation where
  responses : List (String × ResponseDef) := []
  produces : List String := []
  consumes : List String := []
  parameters : List Param := []

/-- Look up a declared response by key and wrap it as a Response model
object carrying the operation's effective `produces`. -/
def findResponse (op : Operation) (key : String) : Option Response :=
  (op.responses.find? (fun p => p.fst == key)).map
    (fun p => { statusCode := p.fst, definition := p.snd, produces := op.produces })

/-- The status-code argument of `Operation.validateResponse`: callers pass
a number or a string. -/
inductive CodeArg where
  | num (n : Nat)
  | str (s : String)
  deriving DecidableEq, Repr

/-- Stringification of a status-code argument. -/
def CodeArg.stringify : CodeArg → String
  | .num n => toString n
  | .str s => s

/-- Modelled from the spec: `Operation.validateResponse` resolves the
Response by preferring an exact match on the stringified status code and
otherwise falling back to the `default` entry; with no status code
provided only `default` is consulted. -/
def Operation.resolveResponse (op : Operation) (statusCode : Option CodeArg) :
    Option Response :=
  match statusCode with
  | some c => (findResponse op c.stringify).orElse (fun _ => findResponse op "default")
  | none => findResponse op "default"

/-- Modelled from the spec: `Operation.validateResponse(statusCode,
headers, body, encoding)` delegates to the resolved Response's
`validateResponse`; when no response resolves it returns a single
`INVALID_RESPONSE_CODE` error whose message distinguishes whether a
status code was provided. -/
def Operation.validateResponse (plugin : Plugin) (vas : Vas) (op : Operation)
    (statusCode : Option CodeArg) (hs : List (String × String)) (body : Option Val)
    (encoding : Option String) : ValidationResults :=
  match op.resolveResponse statusCode with
  | some r => r.validateResponse plugin vas hs body encoding
  | none =>
      { errors := [{ code := "INVALID_RESPONSE_CODE",
                     message :=
                       match statusCode with
                       | none =>
                           "This operation does not have a defined \x27default\x27 response code"
                       | some c =>
                           "This operation does not have a defined \x27" ++ c.stringify ++
                             "\x27 or \x27default\x27 response code",
                     path := [] }],
        warnings := [] }

/-- Modelled from the spec: the Content-Type step of
`Operation.validateRequest` runs the negotiator against the effective
`consumes` exactly when the operation declares or inherits a body or
formData parameter, reading the request's `content-type` header. -/
def Operation.requestContentTypeErrors (op : Operation) (hs : List (String × String)) :
    List SwayError :=
  if op.parameters.any (fun p => p.inLoc == "body" || p.inLoc == "formData") then
    validateContentType (lookupHdr hs "content-type") op.consumes
  else []

/-- The header-value lookup rule exactly as the claim words it: the
lowercased name's entry when present, else the exact name's entry when
present, else the schema-level default — presence-based selection, to be
compared with the truthiness-based `rawHeaderValue` of the source. -/
def claimedHeaderValue (hs : List (String × String)) (name : String) (schema : Schema) :
    Option Val :=
  match lookupHdr hs (toLowerStr name) with
  | some v => some (.vStr v)
  | none =>
      match lookupHdr hs name with
      | some v => some (.vStr v)
      | none => schema.default

/-! ### Concrete fixtures for witnesses and counterexamples -/

/-- A convertor that accepts every value unchanged. -/
def pluginId : Plugin := { convertValue := fun _ _ v => .ok v }

/-- A validator that accepts every value. -/
def vasAcceptAll : Vas := fun _ _ => []

/-- A validator that rejects exactly the string value `"7"`: it stands for
a header schema that the schema-level default `"7"` violates while the
empty string satisfies it. -/
def vasRejectSeven : Vas := fun _ v =>
  if v = some (.vStr "7") then
    [{ code := "INVALID_TYPE", message := "bad default", path := [] }]
  else []

/-- A header schema with default `"7"`. -/
def schemaXLimit : Schema := { default := some (.vStr "7") }

/-- A response declaring one header `X-Limit` with schema `schemaXLimit`. -/
def respXLimit : Response :=
  { statusCode := "200",
    definition := { headers := [("X-Limit", schemaXLimit)] },
    produces := [] }

/-- An operation declaring only a `200` response carrying a schema. -/
def opDeclared200 : Operation :=
  { responses := [("200", { schema := some {} })], produces := ["application/json"] }

/-- An operation declaring only a `default` response without a schema. -/
def opDefaultOnly : Operation := { responses := [("default", {})] }

/-- A concrete coercion failure. -/
def convErrBoom : ConvErr := { code := "E_BOOM", message := "boom", path := [] }

/-- A convertor that throws `convErrBoom` for every schema tagged `id = 1`
and accepts everything else unchanged. -/
def pluginBoom : Plugin :=
  { convertValue := fun s _ v => if s.id = 1 then .error convErrBoom else .ok v }

/-- A response whose body schema and single header schema are both tagged
`id = 1`, so `pluginBoom` fails to coerce both. -/
def respBoom : Response :=
  { statusCode := "200",
    definition := { schema := some { id := 1 }, headers := [("X-Err", { id := 1 })] },
    produces := [] }

/-- A response declaring one header `X-Missing` with a default-free
schema. -/
def respXMissing : Response :=
  { statusCode := "200",
    definition := { headers := [("X-Missing", {})] },
    produces := [] }

/-- The header error `respXLimit` produces under `vasRejectSeven` when the
empty-string header falls through to the default `"7"`. -/
def errXLimit : SwayError :=
  { code := "INVALID_RESPONSE_HEADER",
    errors := some [{ code := "INVALID_TYPE", message := "bad default", path := [] }],
    message := "Invalid header (X-Limit): bad default",
    name := some "X-Limit",
    path := [] }

/-! ### Helper lemmas -/

theorem checkHeaderValue_code_name (plugin : Plugin) (vas : Vas) (n : String) (s : Schema)
    (v : Option Val) (e : SwayError) (he : e ∈ checkHeaderValue plugin vas n s v) :
    e.code = "INVALID_RESPONSE_HEADER" ∧ e.name = some n := by
  unfold checkHeaderValue at he
  split at he
  all_goals try split at he
  all_goals try split at he
  all_goals try split at he
  all_goals
    first
      | (rw [List.mem_singleton] at he; subst he; exact ⟨rfl, rfl⟩)
      | simp at he

theorem validateContentType_code_name (contentType : Option String)
    (supportedTypes : List String) (e : SwayError)
    (he : e ∈ validateContentType contentType supportedTypes) :
    e.code = "INVALID_CONTENT_TYPE" ∧ e.name = none := by
  simp only [validateContentType] at he
  split at he
  all_goals try split at he
  all_goals
    first
      | (rw [List.mem_singleton] at he; subst he; exact ⟨rfl, rfl⟩)
      | simp at he

theorem bodyCheck_code_name (plugin : Plugin) (vas : Vas) (s : Schema) (body : Option Val)
    (encoding : Option String) (e : SwayError)
    (he : e ∈ bodyCheck plugin vas s body encoding) :
    e.code = "INVALID_RESPONSE_BODY" ∧ e.name = none := by
  simp only [bodyCheck] at he
  split at he
  all_goals try split at he
  all_goals
    first
      | (rw [List.mem_singleton] at he; subst he; exact ⟨rfl, rfl⟩)
      | simp at he

/-- The error list of `Response.validateResponse`, decomposed into its
three segments in push order. -/
theorem validateResponse_errors_decomp (plugin : Plugin) (vas : Vas) (r : Response)
    (hs : List (String × String)) (body : Option Val) (encoding : Option String) :
    (r.validateResponse plugin vas hs body encoding).errors =
      (if r.definition.schema.isNone || r.statusCode == "204" || r.statusCode == "304" then []
       else validateContentType (lookupHdr hs "content-type") r.produces) ++
      r.definition.headers.flatMap (fun p => headerCheck plugin vas hs p.fst p.snd) ++
      (match r.definition.schema with
       | none => []
       | some schema =>
           if r.statusCode == "204" || r.statusCode == "304" then []
           else bodyCheck plugin vas schema body encoding) := rfl

/-! ### Claim theorems -/

/-- Claim C10: for every input, the result of `Response.validateResponse`
has an empty warnings array; only the errors array is ever populated. -/
theorem validateResponse_warnings_empty (plugin : Plugin) (vas : Vas) (r : Response)
    (hs : List (String × String)) (body : Option Val) (encoding : Option String) :
    (r.validateResponse plugin vas hs body encoding).warnings = [] := rfl

/-- Claim C1: whenever the response declares no schema or its status code
is `204` or `304`, `Response.validateResponse` performs no Content-Type
and no body validation: no error with code `INVALID_CONTENT_TYPE` or
`INVALID_RESPONSE_BODY` is emitted, for any headers and body. -/
theorem validateResponse_skips_ct_and_body (plugin : Plugin) (vas : Vas) (r : Response)
    (hs : List (String × String)) (body : Option Val) (encoding : Option String)
    (h : r.definition.schema = none ∨ r.statusCode = "204" ∨ r.statusCode = "304") :
    ∀ e ∈ (r.validateResponse plugin vas hs body encoding).errors,
      e.code ≠ "INVALID_CONTENT_TYPE" ∧ e.code ≠ "INVALID_RESPONSE_BODY" := by
  intro e he
  rw [validateResponse_errors_decomp] at he
  have hskip : (r.definition.schema.isNone || r.statusCode == "204" ||
      r.statusCode == "304") = true := by
    rcases h with h | h | h <;> simp [h]
  rw [if_pos hskip] at he
  have hbody : (match r.definition.schema with
      | none => ([] : List SwayError)
      | some schema =>
          if r.statusCode == "204" || r.statusCode == "304" then []
          else bodyCheck plugin vas schema body encoding) = [] := by
    rcases h with h | h | h
    · simp [h]
    · cases r.definition.schema <;> simp [h]
    · cases r.definition.schema <;> simp [h]
  rw [hbody] at he
  simp only [List.nil_append, List.append_nil, List.mem_flatMap] at he
  obtain ⟨p, _, hp⟩ := he
  have := checkHeaderValue_code_name plugin vas p.fst p.snd _ e hp
  rw [this.1]
  exact ⟨by decide, by decide⟩

/-- Witness for C1: a `204` response with a schema and a failing header:
the lone emitted error is a header error, neither a Content-Type nor a
body error. -/
theorem validateResponse_skips_ct_and_body_witness :
    (({ statusCode := "204", definition := { schema := some {} }, produces := [] } :
        Response).definition.schema = none ∨
      ({ statusCode := "204", definition := { schema := some {} }, produces := [] } :
        Response).statusCode = "204" ∨
      ({ statusCode := "204", definition := { schema := some {} }, produces := [] } :
        Response).statusCode = "304") ∧
    ∀ e ∈ (Response.validateResponse { convertValue := fun _ _ v => .ok v } (fun _ _ => [])
        { statusCode := "204", definition := { schema := some {} }, produces := [] }
        [("content-type", "text/plain")] (some (.vStr "x")) none).errors,
      e.code ≠ "INVALID_CONTENT_TYPE" ∧ e.code ≠ "INVALID_RESPONSE_BODY" :=
  ⟨Or.inr (Or.inl rfl),
   validateResponse_skips_ct_and_body { convertValue := fun _ _ v => .ok v } (fun _ _ => [])
     { statusCode := "204", definition := { schema := some {} }, produces := [] }
     [("content-type", "text/plain")] (some (.vStr "x")) none (Or.inr (Or.inl rfl))⟩

/-- Claim C2: when neither the stringified status code nor `default` is a
declared response, `Operation.validateResponse` returns exactly one
`INVALID_RESPONSE_CODE` error with path `[]` whose message distinguishes
the no-code-provided and code-provided cases. -/
theorem operation_missing_response_error (plugin : Plugin) (vas : Vas) (op : Operation)
    (statusCode : Option CodeArg) (hs : List (String × String)) (body : Option Val)
    (encoding : Option String)
    (hdef : findResponse op "default" = none)
    (hcode : ∀ c, statusCode = some c → findResponse op c.stringify = none) :
    Operation.validateResponse plugin vas op statusCode hs body encoding =
      { errors := [{ code := "INVALID_RESPONSE_CODE",
                     message :=
                       match statusCode with
                       | none =>
                           "This operation does not have a defined \x27default\x27 response code"
                       | some c =>
                           "This operation does not have a defined \x27" ++ c.stringify ++
                             "\x27 or \x27default\x27 response code",
                     path := [] }],
        warnings := [] } := by
  have hres : op.resolveResponse statusCode = none := by
    cases statusCode with
    | none => simpa [Operation.resolveResponse] using hdef
    | some c =>
        simp only [Operation.resolveResponse, hcode c rfl, hdef]
        rfl
  unfold Operation.validateResponse
  rw [hres]
  cases statusCode <;> rfl

/-- Witness for C2: an operation declaring only a `405` response, asked
about status code `201`. -/
theorem operation_missing_response_error_witness :
    findResponse { responses := [("405", {})] } "default" = none ∧
    findResponse { responses := [("405", {})] } (CodeArg.num 201).stringify = none ∧
    Operation.validateResponse pluginId vasAcceptAll { responses := [("405", {})] }
        (some (.num 201)) [] none none =
      { errors := [{ code := "INVALID_RESPONSE_CODE",
                     message :=
                       "This operation does not have a defined \x27201\x27 or \x27default\x27 response code",
                     path := [] }],
        warnings := [] } :=
  ⟨rfl, rfl,
   operation_missing_response_error pluginId vasAcceptAll { responses := [("405", {})] }
     (some (.num 201)) [] none none rfl
     (fun c hc => by cases hc; rfl)⟩

/-- Counterexample to Claim C3 as stated: `opDeclared200` declares
`responses["200"]`, yet `validateResponse(200, ...)` with a Content-Type
outside `produces` returns a nonempty errors array, so declaring
`responses[code]` does not imply `errors == []` for every headers/body. -/
theorem validateResponse_code_iff_cex :
    (findResponse opDeclared200 "200").isSome = true ∧
    (Operation.validateResponse pluginId vasAcceptAll opDeclared200 (some (.num 200))
        [("content-type", "text/plain")] none none).errors =
      [{ code := "INVALID_CONTENT_TYPE",
         message := "Invalid Content-Type (text/plain).  These are supported: application/json",
         path := [] }] ∧
    (Operation.validateResponse pluginId vasAcceptAll opDeclared200 (some (.num 200))
        [("content-type", "text/plain")] none none).errors ≠ [] := by
  refine ⟨by decide, by decide, by decide⟩

/-- Claim C3 (amended): `errors == []` implies the operation declares
`responses[code]` or `responses.default`; the converse direction of the
original claim fails because a resolved response can still contribute
content-type, header or body errors. -/
theorem validateResponse_code_empty_implies_declared (plugin : Plugin) (vas : Vas)
    (op : Operation) (statusCode : Option CodeArg) (hs : List (String × String))
    (body : Option Val) (encoding : Option String)
    (h : (Operation.validateResponse plugin vas op statusCode hs body encoding).errors = []) :
    match statusCode with
    | some c => (findResponse op c.stringify).isSome = true ∨
        (findResponse op "default").isSome = true
    | none => (findResponse op "default").isSome = true := by
  cases hres : op.resolveResponse statusCode with
  | none =>
      exfalso
      unfold Operation.validateResponse at h
      rw [hres] at h
      simp at h
  | some r =>
      cases statusCode with
      | none =>
          simp only [Operation.resolveResponse] at hres
          simp [hres]
      | some c =>
          simp only [Operation.resolveResponse] at hres
          cases hfc : findResponse op c.stringify with
          | some r2 => exact Or.inl (by simp [hfc])
          | none =>
              rw [hfc] at hres
              refine Or.inr ?_
              have : findResponse op "default" = some r := hres
              simp [this]

/-- Witness for C3 (amended): an operation with only a `default` response
validated at status code `201` yields no errors, and indeed declares a
`default` response. -/
theorem validateResponse_code_empty_implies_declared_witness :
    (Operation.validateResponse pluginId vasAcceptAll opDefaultOnly (some (.num 201))
        [] none none).errors = [] ∧
    ((findResponse opDefaultOnly (CodeArg.num 201).stringify).isSome = true ∨
      (findResponse opDefaultOnly "default").isSome = true) :=
  ⟨rfl,
   validateResponse_code_empty_implies_declared pluginId vasAcceptAll opDefaultOnly
     (some (.num 201)) [] none none rfl⟩

/-- Claim C4 (amended): the errors of `Response.validateResponse` are the
Content-Type errors, then one segment per declared header schema, then the
body errors; each header segment validates the value
`headers[lowercased name] || headers[name] || schema.default` (JavaScript
`||`: a falsy value such as the empty string falls through), coerced by the
convertor and checked by the validator, and every failure it surfaces has
code `INVALID_RESPONSE_HEADER` and carries the declared header name. -/
theorem response_header_validation (plugin : Plugin) (vas : Vas) (r : Response)
    (hs : List (String × String)) (body : Option Val) (encoding : Option String) :
    ((r.validateResponse plugin vas hs body encoding).errors =
      (if r.definition.schema.isNone || r.statusCode == "204" || r.statusCode == "304" then []
       else validateContentType (lookupHdr hs "content-type") r.produces) ++
      r.definition.headers.flatMap (fun p =>
        checkHeaderValue plugin vas p.fst p.snd
          (jsOr ((lookupHdr hs (toLowerStr p.fst)).map Val.vStr)
            (jsOr ((lookupHdr hs p.fst).map Val.vStr) p.snd.default))) ++
      (match r.definition.schema with
       | none => []
       | some schema =>
           if r.statusCode == "204" || r.statusCode == "304" then []
           else bodyCheck plugin vas schema body encoding)) ∧
    ∀ n s e, e ∈ checkHeaderValue plugin vas n s (rawHeaderValue hs n s) →
      e.code = "INVALID_RESPONSE_HEADER" ∧ e.name = some n := by
  refine ⟨rfl, ?_⟩
  intro n s e he
  exact checkHeaderValue_code_name plugin vas n s _ e he

/-- Witness for C4 (amended): the error emitted for the `X-Limit` header
of `respXLimit` carries code `INVALID_RESPONSE_HEADER` and the declared
header name. -/
theorem response_header_validation_witness :
    errXLimit ∈ checkHeaderValue pluginId vasRejectSeven "X-Limit" schemaXLimit
        (rawHeaderValue [("x-limit", "")] "X-Limit" schemaXLimit) ∧
    errXLimit.code = "INVALID_RESPONSE_HEADER" ∧ errXLimit.name = some "X-Limit" := by
  have h := (response_header_validation pluginId vasRejectSeven respXLimit
    [("x-limit", "")] none none).2 "X-Limit" schemaXLimit errXLimit (by decide)
  exact ⟨by decide, h.1, h.2⟩

/-- Counterexample to Claim C4 as stated: the supplied headers contain the
lowercased name `x-limit` with value `""`, so the claimed lookup selects the
empty string, which the validator accepts; but the code lets the falsy empty
string fall through to the schema default `"7"`, which the validator
rejects, so an `INVALID_RESPONSE_HEADER` error for `X-Limit` is emitted
where the claimed lookup rule predicts none. -/
theorem response_header_lookup_cex :
    claimedHeaderValue [("x-limit", "")] "X-Limit" schemaXLimit = some (.vStr "") ∧
    vasRejectSeven schemaXLimit (some (.vStr "")) = [] ∧
    checkHeaderValue pluginId vasRejectSeven "X-Limit" schemaXLimit
        (claimedHeaderValue [("x-limit", "")] "X-Limit" schemaXLimit) = [] ∧
    (respXLimit.validateResponse pluginId vasRejectSeven [("x-limit", "")] none none).errors =
      [{ code := "INVALID_RESPONSE_HEADER",
         errors := some [{ code := "INVALID_TYPE", message := "bad default", path := [] }],
         message := "Invalid header (X-Limit): bad default",
         name := some "X-Limit",
         path := [] }] := by
  refine ⟨by decide, by decide, by decide, by decide⟩

/-- Claim C5: no required-header check is performed: a header declared in
the response's header schemas but absent from the supplied headers and
without a schema-level default (with the convertor mapping a missing value
to a missing value, per section 4.D) contributes no error and no warning. -/
theorem no_required_header_check (plugin : Plugin) (vas : Vas) (r : Response)
    (hs : List (String × String)) (body : Option Val) (encoding : Option String) (n : String)
    (habs : ∀ s, (n, s) ∈ r.definition.headers →
      lookupHdr hs (toLowerStr n) = none ∧ lookupHdr hs n = none ∧ s.default = none ∧
      plugin.convertValue s { collectionFormat := s.collectionFormat } none = .ok none) :
    (∀ e ∈ (r.validateResponse plugin vas hs body encoding).errors, e.name ≠ some n) ∧
    (r.validateResponse plugin vas hs body encoding).warnings = [] := by
  refine ⟨?_, rfl⟩
  intro e he hename
  rw [validateResponse_errors_decomp] at he
  rcases List.mem_append.mp he with he | he
  · rcases List.mem_append.mp he with he | he
    · -- Content-Type segment: those errors carry no name
      split at he
      · simp at he
      · have := validateContentType_code_name _ _ e he
        rw [hename] at this
        exact Option.some_ne_none n this.2
    · -- header segment
      obtain ⟨p, hpmem, hpe⟩ := List.mem_flatMap.mp he
      have hcn := checkHeaderValue_code_name plugin vas p.fst p.snd _ e hpe
      have hfst : p.fst = n := by
        have := hcn.2.symm.trans hename
        exact Option.some.inj this
      have hpn : (n, p.snd) ∈ r.definition.headers := by
        rw [← hfst]
        exact hpmem
      obtain ⟨h1, h2, h3, h4⟩ := habs p.snd hpn
      have hraw : rawHeaderValue hs p.fst p.snd = none := by
        rw [hfst]
        simp [rawHeaderValue, jsOr, h1, h2, h3]
      rw [headerCheck, hraw, hfst] at hpe
      rw [checkHeaderValue, h4] at hpe
      simp at hpe
  · -- body segment: those errors carry no name
    split at he
    · simp at he
    · split at he
      · simp at he
      · have := bodyCheck_code_name plugin vas _ body encoding e he
        rw [hename] at this
        exact Option.some_ne_none n this.2

/-- Witness for C5: a response declaring header `X-Missing`, validated
against empty headers, produces no error naming `X-Missing` and no
warnings. -/
theorem no_required_header_check_witness :
    (∀ s, ("X-Missing", s) ∈ respXMissing.definition.headers →
      lookupHdr [] (toLowerStr "X-Missing") = none ∧ lookupHdr [] "X-Missing" = none ∧
      s.default = none ∧
      pluginId.convertValue s { collectionFormat := s.collectionFormat } none = .ok none) ∧
    (∀ e ∈ (respXMissing.validateResponse pluginId vasAcceptAll [] none none).errors,
      e.name ≠ some "X-Missing") ∧
    (respXMissing.validateResponse pluginId vasAcceptAll [] none none).warnings = [] := by
  have habs : ∀ s, ("X-Missing", s) ∈ respXMissing.definition.headers →
      lookupHdr [] (toLowerStr "X-Missing") = none ∧ lookupHdr [] "X-Missing" = none ∧
      s.default = none ∧
      pluginId.convertValue s { collectionFormat := s.collectionFormat } none = .ok none := by
    intro s hmem
    simp only [respXMissing, List.mem_singleton, Prod.mk.injEq] at hmem
    rw [hmem.2]
    exact ⟨rfl, rfl, rfl, rfl⟩
  obtain ⟨h1, h2⟩ := no_required_header_check pluginId vasAcceptAll respXMissing
    [] none none "X-Missing" habs
  exact ⟨habs, h1, h2⟩

/-- Claim C6: validation always returns a results object; a coercion
failure thrown while converting a header value surfaces as an
`INVALID_RESPONSE_HEADER` error wrapping the thrown error, and a coercion
failure thrown while converting the body surfaces as an
`INVALID_RESPONSE_BODY` error wrapping it. -/
theorem validateResponse_wraps_coercion_failures (plugin : Plugin) (vas : Vas) (r : Response)
    (hs : List (String × String)) (body : Option Val) (encoding : Option String) :
    (∀ n s err, (n, s) ∈ r.definition.headers →
       plugin.convertValue s { collectionFormat := s.collectionFormat }
           (rawHeaderValue hs n s) = .error err →
       ∃ e ∈ (r.validateResponse plugin vas hs body encoding).errors,
         e.code = "INVALID_RESPONSE_HEADER" ∧ e.name = some n ∧
         e.message = "Invalid header (" ++ n ++ "): " ++ err.message ∧
         e.errors = some (err.errors.getD
           [{ code := err.code, message := err.message, path := err.path }])) ∧
    (∀ s err, r.definition.schema = some s → r.statusCode ≠ "204" → r.statusCode ≠ "304" →
       plugin.convertValue s { encoding := encoding } body = .error err →
       ∃ e ∈ (r.validateResponse plugin vas hs body encoding).errors,
         e.code = "INVALID_RESPONSE_BODY" ∧
         e.message = "Invalid body: " ++ err.message ∧
         e.errors = some [{ code := err.code, message := err.message, path := err.path }]) := by
  constructor
  · intro n s err hmem hconv
    refine ⟨{ code := "INVALID_RESPONSE_HEADER",
              errors := some (err.errors.getD
                [{ code := err.code, message := err.message, path := err.path }]),
              message := "Invalid header (" ++ n ++ "): " ++ err.message,
              name := some n,
              path := err.path }, ?_, rfl, rfl, rfl, rfl⟩
    rw [validateResponse_errors_decomp]
    refine List.mem_append_left _ (List.mem_append_right _ ?_)
    refine List.mem_flatMap.mpr ⟨(n, s), hmem, ?_⟩
    simp [headerCheck, checkHeaderValue, hconv]
  · intro s err hsch h204 h304 hconv
    obtain ⟨st, ⟨sch, hdrs⟩, prods⟩ := r
    simp only at hsch h204 h304
    subst hsch
    have hb : (st == "204" || st == "304") = false := by
      simp [h204, h304]
    refine ⟨{ code := "INVALID_RESPONSE_BODY",
              errors := some [{ code := err.code, message := err.message, path := err.path }],
              message := "Invalid body: " ++ err.message,
              path := [] }, ?_, rfl, rfl, rfl⟩
    rw [validateResponse_errors_decomp]
    refine List.mem_append_right _ ?_
    show _ ∈ (match (some s : Option Schema) with
      | none => []
      | some schema =>
          if (st == "204" || st == "304") = true then []
          else bodyCheck plugin vas schema body encoding)
    rw [show (match (some s : Option Schema) with
      | none => ([] : List SwayError)
      | some schema =>
          if (st == "204" || st == "304") = true then []
          else bodyCheck plugin vas schema body encoding) =
        (if (st == "204" || st == "304") = true then []
         else bodyCheck plugin vas s body encoding) from rfl]
    rw [hb]
    simp [bodyCheck, hconv]

/-- Witness for C6: `pluginBoom` throws on both the header and the body of
`respBoom`; both failures surface as wrapped errors. -/
theorem validateResponse_wraps_coercion_failures_witness :
    (("X-Err", ({ id := 1 } : Schema)) ∈ respBoom.definition.headers) ∧
    (pluginBoom.convertValue { id := 1 } { collectionFormat := none }
        (rawHeaderValue [] "X-Err" { id := 1 }) = .error convErrBoom) ∧
    respBoom.definition.schema = some { id := 1 } ∧
    (pluginBoom.convertValue { id := 1 } { encoding := none } none = .error convErrBoom) ∧
    (∃ e ∈ (respBoom.validateResponse pluginBoom vasAcceptAll [] none none).errors,
       e.code = "INVALID_RESPONSE_HEADER" ∧ e.name = some "X-Err" ∧
       e.message = "Invalid header (" ++ "X-Err" ++ "): " ++ convErrBoom.message ∧
       e.errors = some (convErrBoom.errors.getD
         [{ code := convErrBoom.code, message := convErrBoom.message,
            path := convErrBoom.path }])) ∧
    (∃ e ∈ (respBoom.validateResponse pluginBoom vasAcceptAll [] none none).errors,
       e.code = "INVALID_RESPONSE_BODY" ∧
       e.message = "Invalid body: " ++ convErrBoom.message ∧
       e.errors = some [{ code := convErrBoom.code, message := convErrBoom.message,
                          path := convErrBoom.path }]) := by
  obtain ⟨hh, hb⟩ := validateResponse_wraps_coercion_failures pluginBoom vasAcceptAll
    respBoom [] none none
  exact ⟨by decide, rfl, rfl, rfl,
    hh "X-Err" { id := 1 } convErrBoom (by decide) rfl,
    hb { id := 1 } convErrBoom rfl (by decide) (by decide) rfl⟩

/-- Claim C7: in Content-Type negotiation for `validateRequest`, an absent
Content-Type is treated as `application/octet-stream` (yielding an
`INVALID_CONTENT_TYPE` error when that is not among the declared consumes),
matching compares the type/subtype portion with media-type parameters
stripped, and an exact full-string match including parameters also counts. -/
theorem contentType_negotiation (supported : List String) (ct : String) (op : Operation)
    (hs : List (String × String)) :
    (op.parameters.any (fun p => p.inLoc == "body" || p.inLoc == "formData") = true →
       Operation.requestContentTypeErrors op hs =
         validateContentType (lookupHdr hs "content-type") op.consumes) ∧
    (supported ≠ [] → "application/octet-stream" ∉ supported →
       validateContentType none supported =
         [{ code := "INVALID_CONTENT_TYPE",
            message := "Invalid Content-Type (application/octet-stream).  These are supported: "
              ++ String.intercalate ", " supported,
            path := [] }]) ∧
    (stripParams ct ∈ supported → validateContentType (some ct) supported = []) ∧
    (ct ∈ supported → validateContentType (some ct) supported = []) := by
  refine ⟨?_, ?_, ?_, ?_⟩
  · intro h
    unfold Operation.requestContentTypeErrors
    rw [if_pos h]
  · intro h1 h2
    have hlen : supported.length > 0 := List.length_pos.mpr h1
    simp [validateContentType, hlen]
    exact h2
  · intro h
    simp [validateContentType]
    intro _ hns
    exact absurd h hns
  · intro h
    simp [validateContentType]
    intro _ _
    exact h

/-- Witness for C7: the petstore-shaped consumes list: an absent
Content-Type yields the octet-stream error; a parameterised `json`
Content-Type matches by stripping; a parameterised `x-yaml` Content-Type
matches its exact declared entry. -/
theorem contentType_negotiation_witness :
    (["application/json", "application/xml"] : List String) ≠ [] ∧
    "application/octet-stream" ∉ (["application/json", "application/xml"] : List String) ∧
    validateContentType none ["application/json", "application/xml"] =
      [{ code := "INVALID_CONTENT_TYPE",
         message := "Invalid Content-Type (application/octet-stream).  These are supported: "
           ++ String.intercalate ", " ["application/json", "application/xml"],
         path := [] }] ∧
    stripParams "application/json; charset=utf-8" ∈
      (["application/json", "application/xml"] : List String) ∧
    validateContentType (some "application/json; charset=utf-8")
      ["application/json", "application/xml"] = [] ∧
    "application/x-yaml; charset=utf-8" ∈
      (["application/json", "application/xml", "application/x-yaml; charset=utf-8"] :
        List String) ∧
    validateContentType (some "application/x-yaml; charset=utf-8")
      ["application/json", "application/xml", "application/x-yaml; charset=utf-8"] = [] := by
  refine ⟨by decide, by decide,
    (contentType_negotiation ["application/json", "application/xml"] "" {} []).2.1
      (by decide) (by decide),
    by decide,
    (contentType_negotiation ["application/json", "application/xml"]
      "application/json; charset=utf-8" {} []).2.2.1 (by decide),
    by decide,
    (contentType_negotiation
      ["application/json", "application/xml", "application/x-yaml; charset=utf-8"]
      "application/x-yaml; charset=utf-8" {} []).2.2.2 (by decide)⟩

/-- Claim C8: the effective media-type list equals the operation-level
list when that is non-empty, and otherwise (omitted or empty) the
document-level list. -/
theorem operation_effective_consumes (operationLevel documentLevel : Option (List String))
    (l : List String) :
    (operationLevel = some l → l ≠ [] →
       effectiveMediaTypes operationLevel documentLevel = l) ∧
    (operationLevel = none →
       effectiveMediaTypes operationLevel documentLevel = documentLevel.getD []) ∧
    (operationLevel = some [] →
       effectiveMediaTypes operationLevel documentLevel = documentLevel.getD []) := by
  refine ⟨?_, ?_, ?_⟩
  · intro h hne
    subst h
    have : l.isEmpty = false := by simp [List.isEmpty_iff, hne]
    simp [effectiveMediaTypes, this]
  · intro h
    subst h
    rfl
  · intro h
    subst h
    rfl

/-- Witness for C8: a non-empty operation-level list wins; `none` and `[]`
at the operation level both fall back to the document level. -/
theorem operation_effective_consumes_witness :
    (some ["application/json"] : Option (List String)) = some ["application/json"] ∧
    (["application/json"] : List String) ≠ [] ∧
    effectiveMediaTypes (some ["application/json"]) (some ["application/xml"]) =
      ["application/json"] ∧
    effectiveMediaTypes none (some ["application/xml"]) =
      (some ["application/xml"]).getD [] ∧
    effectiveMediaTypes (some []) (some ["application/xml"]) =
      (some ["application/xml"]).getD [] :=
  ⟨rfl, by decide,
   (operation_effective_consumes (some ["application/json"]) (some ["application/xml"])
     ["application/json"]).1 rfl (by decide),
   (operation_effective_consumes none (some ["application/xml"]) []).2.1 rfl,
   (operation_effective_consumes (some []) (some ["application/xml"]) []).2.2 rfl⟩

/-- The boolean key test used by `mergeParameters` agrees with equality of
the composite key `(name, in)`. -/
theorem keyMatch_eq_true_iff (p q : Param) :
    (q.name == p.name && q.inLoc == p.inLoc) = true ↔ paramKey q = paramKey p := by
  simp [paramKey, Prod.ext_iff]

/-- Length of the composed parameter list: with internally key-unique
path-level and operation-level lists, merging yields one parameter per
element of the key-wise union. -/
theorem mergeParameters_length (pathParams opParams : List Param)
    (hp : (pathParams.map paramKey).Nodup) (ho : (opParams.map paramKey).Nodup) :
    (mergeParameters pathParams opParams).length =
      ((pathParams ++ opParams).map paramKey).dedup.length := by
  induction pathParams with
  | nil =>
      simp [mergeParameters, List.dedup_eq_self.mpr ho]
  | cons a t ih =>
      rw [List.map_cons, List.nodup_cons] at hp
      obtain ⟨ha, ht⟩ := hp
      by_cases hmem : paramKey a ∈ opParams.map paramKey
      · have hpred : (opParams.any (fun q => q.name == a.name && q.inLoc == a.inLoc)) = true := by
          obtain ⟨k, hk, hke⟩ := List.mem_map.mp hmem
          exact List.any_eq_true.mpr ⟨k, hk, (keyMatch_eq_true_iff a k).mpr hke⟩
        have hstep : mergeParameters (a :: t) opParams = mergeParameters t opParams := by
          simp [mergeParameters, List.filter_cons, hpred]
        have hkey : paramKey a ∈ (t ++ opParams).map paramKey := by
          rw [List.map_append]
          exact List.mem_append_right _ hmem
        have hdedup : ((a :: t ++ opParams).map paramKey).dedup =
            ((t ++ opParams).map paramKey).dedup := by
          rw [List.cons_append, List.map_cons]
          exact List.dedup_cons_of_mem hkey
        rw [hstep, hdedup]
        exact ih ht
      · have hpred : (opParams.any (fun q => q.name == a.name && q.inLoc == a.inLoc)) = false := by
          rw [← Bool.not_eq_true, List.any_eq_true]
          rintro ⟨k, hk, hke⟩
          exact hmem (List.mem_map.mpr ⟨k, hk, (keyMatch_eq_true_iff a k).mp hke⟩)
        have hstep : mergeParameters (a :: t) opParams = a :: mergeParameters t opParams := by
          simp [mergeParameters, List.filter_cons, hpred]
        have hkey : paramKey a ∉ (t ++ opParams).map paramKey := by
          rw [List.map_append]
          intro hin
          rcases List.mem_append.mp hin with hin | hin
          · exact ha hin
          · exact hmem hin
        have hdedup : ((a :: t ++ opParams).map paramKey).dedup =
            paramKey a :: ((t ++ opParams).map paramKey).dedup := by
          rw [List.cons_append, List.map_cons]
          exact List.dedup_cons_of_not_mem hkey
        rw [hstep, hdedup, List.length_cons, List.length_cons]
        exact congrArg (· + 1) (ih ht)

/-- Claim C9: the composed Parameters list is the union of path-level
parameters followed by operation-level parameters deduplicated on
`(name, in)` with operation precedence: every operation-level parameter
appears, a path-level parameter appears iff no operation-level parameter
shares its key, and the length is that of the key-wise union. -/
theorem operation_parameter_composition (pathParams opParams : List Param)
    (hp : (pathParams.map paramKey).Nodup) (ho : (opParams.map paramKey).Nodup) :
    (∀ q ∈ opParams, q ∈ mergeParameters pathParams opParams) ∧
    (∀ p ∈ pathParams, (∀ q ∈ opParams, paramKey q ≠ paramKey p) →
       p ∈ mergeParameters pathParams opParams) ∧
    (mergeParameters pathParams opParams).length =
      ((pathParams ++ opParams).map paramKey).dedup.length := by
  refine ⟨?_, ?_, mergeParameters_length pathParams opParams hp ho⟩
  · intro q hq
    exact List.mem_append_right _ hq
  · intro p hpmem hnone
    refine List.mem_append_left _ ?_
    rw [List.mem_filter]
    refine ⟨hpmem, ?_⟩
    have hfalse : (opParams.any fun q => q.name == p.name && q.inLoc == p.inLoc) = false := by
      apply Bool.eq_false_iff.mpr
      intro htrue
      obtain ⟨k, hk, hke⟩ := List.any_eq_true.mp htrue
      exact hnone k hk ((keyMatch_eq_true_iff p k).mp hke)
    simp [hfalse]

/-- Witness for C9: a path list with two parameters, an operation list
overriding one of them and adding a body parameter: the merge keeps the
non-overridden path parameter, both operation parameters, and has length
three, the size of the key-wise union. -/
theorem operation_parameter_composition_witness :
    (([⟨"petId", "path", 0⟩, ⟨"limit", "query", 1⟩] : List Param).map paramKey).Nodup ∧
    (([⟨"petId", "path", 2⟩, ⟨"body", "body", 3⟩] : List Param).map paramKey).Nodup ∧
    (∀ q ∈ ([⟨"petId", "path", 2⟩, ⟨"body", "body", 3⟩] : List Param),
       q ∈ mergeParameters [⟨"petId", "path", 0⟩, ⟨"limit", "query", 1⟩]
         [⟨"petId", "path", 2⟩, ⟨"body", "body", 3⟩]) ∧
    (∀ p ∈ ([⟨"petId", "path", 0⟩, ⟨"limit", "query", 1⟩] : List Param),
       (∀ q ∈ ([⟨"petId", "path", 2⟩, ⟨"body", "body", 3⟩] : List Param),
          paramKey q ≠ paramKey p) →
       p ∈ mergeParameters [⟨"petId", "path", 0⟩, ⟨"limit", "query", 1⟩]
         [⟨"petId", "path", 2⟩, ⟨"body", "body", 3⟩]) ∧
    (mergeParameters [⟨"petId", "path", 0⟩, ⟨"limit", "query", 1⟩]
        [⟨"petId", "path", 2⟩, ⟨"body", "body", 3⟩]).length =
      ((([⟨"petId", "path", 0⟩, ⟨"limit", "query", 1⟩] ++
          [⟨"petId", "path", 2⟩, ⟨"body", "body", 3⟩]) : List Param).map paramKey).dedup.length := by
  obtain ⟨h1, h2, h3⟩ := operation_parameter_composition
    [⟨"petId", "path", 0⟩, ⟨"limit", "query", 1⟩]
    [⟨"petId", "path", 2⟩, ⟨"body", "body", 3⟩] (by decide) (by decide)
  exact ⟨by decide, by decide, h1, h2, h3⟩

end Sway
